import Mathlib

/-!
Shallow embedding of `src/DataTransferV1/main.py`, the single-file firmware
telemetry loop of this repository, together with theorems checking the
natural-language specification against it.

Modelling conventions:
* Python exceptions are modelled with `Except`: a peripheral operation that may
  raise is an `Except Unit _` value supplied by the per-cycle environment, and a
  Python-level error that propagates out of the loop body is a `PyErr`.
* Machine floats only ever reach the loop after `round(x, 2)` (barometer) or
  through fixed-precision formatting (GPS latitude/longitude), so barometer
  values are modelled as integer hundredths and GPS coordinates as integer
  micro-degrees; the string renderings below reproduce the Python textual
  output of those already-rounded values.
* A Python variable that may be unbound (the loop's global `pressure`) is an
  `Option` where `none` means unbound; reading it unbound is a `NameError`.
-/

/-- Python-level errors that can propagate out of the code under test:
`nameError` for reading a never-assigned global, `unboundLocal` for reading a
never-assigned function local, `peripheral` for an exception raised by a
peripheral operation that the surrounding code does not catch. -/
inductive PyErr where
  | nameError
  | unboundLocal
  | peripheral
deriving Repr, DecidableEq

/-- Whether a byte is a UTF-8 continuation byte (0x80 to 0xBF). -/
def isCont (b : Nat) : Bool := 0x80 ≤ b && b ≤ 0xBF

/-- Model of Python byte-string decoding with encoding utf-8 and error handler
ignore: standard UTF-8 decoding where every byte that does not start a valid
sequence is dropped instead of raising.  Total by construction: the ignore
handler makes decoding a function, never an exception. -/
def utf8DecodeIgnoreF : Nat → List Nat → List Char
  | 0, _ => []
  | _ + 1, [] => []
  | fuel + 1, b1 :: rest =>
    if b1 < 0x80 then Char.ofNat b1 :: utf8DecodeIgnoreF fuel rest
    else if b1 < 0xC2 then utf8DecodeIgnoreF fuel rest
    else if b1 < 0xE0 then
      match rest with
      | b2 :: rest2 =>
        if isCont b2 then
          Char.ofNat ((b1 - 0xC0) * 0x40 + (b2 - 0x80)) :: utf8DecodeIgnoreF fuel rest2
        else utf8DecodeIgnoreF fuel rest
      | [] => []
    else if b1 < 0xF0 then
      match rest with
      | b2 :: b3 :: rest3 =>
        if isCont b2 ∧ isCont b3 ∧ (b1 ≠ 0xE0 ∨ 0xA0 ≤ b2) ∧ (b1 ≠ 0xED ∨ b2 ≤ 0x9F) then
          Char.ofNat ((b1 - 0xE0) * 0x1000 + (b2 - 0x80) * 0x40 + (b3 - 0x80)) ::
            utf8DecodeIgnoreF fuel rest3
        else utf8DecodeIgnoreF fuel rest
      | _ => []
    else if b1 < 0xF5 then
      match rest with
      | b2 :: b3 :: b4 :: rest4 =>
        if isCont b2 ∧ isCont b3 ∧ isCont b4 ∧ (b1 ≠ 0xF0 ∨ 0x90 ≤ b2) ∧ (b1 ≠ 0xF4 ∨ b2 ≤ 0x8F) then
          Char.ofNat ((b1 - 0xF0) * 0x40000 + (b2 - 0x80) * 0x1000 +
              (b3 - 0x80) * 0x40 + (b4 - 0x80)) :: utf8DecodeIgnoreF fuel rest4
        else utf8DecodeIgnoreF fuel rest
      | _ => []
    else utf8DecodeIgnoreF fuel rest

/-- The decoder applied with enough fuel for the whole byte string: every
recursive step consumes at least one byte while spending exactly one unit of
fuel, so a budget of the byte count is never exhausted. -/
def utf8DecodeIgnore (bs : List Nat) : List Char := utf8DecodeIgnoreF bs.length bs

/-- Characters stripped by Python `str.strip()` with no argument. -/
def isPySpace (c : Char) : Bool :=
  c == ' ' || c == '\t' || c == '\n' || c == '\r' || c == Char.ofNat 11 || c == Char.ofNat 12

/-- Model of Python `str.strip()`: drop leading and trailing whitespace. -/
def pyStrip (s : String) : String :=
  String.mk (((s.data.dropWhile isPySpace).reverse.dropWhile isPySpace).reverse)

/-- Whether `n` is a leading segment of `h` (character lists). -/
def isLeadOf : List Char → List Char → Bool
  | [], _ => true
  | _ :: _, [] => false
  | a :: as, b :: bs => a == b && isLeadOf as bs

/-- Substring occurrence on character lists. -/
def containsSubList (n : List Char) : List Char → Bool
  | [] => n.isEmpty
  | c :: cs => isLeadOf n (c :: cs) || containsSubList n cs

/-- Model of the Python substring test `n in h`. -/
def containsSub (n h : String) : Bool := containsSubList n.data h.data

/-- Decimal digits of `n`, zero-padded on the left to width 6; used for the
fractional part of `:.6f` formatting. -/
def pad6 (n : Nat) : String :=
  let s := toString n
  String.mk (List.replicate (6 - s.length) '0') ++ s

/-- Model of Python fixed-point formatting `:.6f` applied to a coordinate held
as integer micro-degrees (the value the float carries after parsing). -/
def fmt6 (m : Int) : String :=
  (if m < 0 then "-" else "") ++ toString (m.natAbs / 1000000) ++ "." ++ pad6 (m.natAbs % 1000000)

/-- Model of Python `str(x)` for a non-negative float `x` that is an exact
multiple of 0.01, held as integer hundredths: the shortest decimal repr, with
Python always printing at least one fractional digit. -/
def formatHNat (n : Nat) : String :=
  let ip := toString (n / 100)
  let fr := n % 100
  if fr = 0 then ip ++ ".0"
  else if fr % 10 = 0 then ip ++ "." ++ toString (fr / 10)
  else if fr < 10 then ip ++ ".0" ++ toString fr
  else ip ++ "." ++ toString fr

/-- Model of Python `str(x)` for a float that is an exact multiple of 0.01
(the result of `round(x, 2)`), held as integer hundredths. -/
def formatH (k : Int) : String :=
  (if k < 0 then "-" else "") ++ formatHNat k.natAbs

/-- Python `str` applied to a variable that holds either a 2-decimal float or
`None` (renders as the literal token `None` inside an f-string). -/
def pyStrOptFloat : Option Int → String
  | none => "None"
  | some k => formatH k

/-- Decidable equality for `Except`, used to evaluate concrete cycle
outcomes. -/
instance {ε α : Type} [DecidableEq ε] [DecidableEq α] : DecidableEq (Except ε α) :=
  fun x y =>
    match x, y with
    | .ok a, .ok b =>
      if h : a = b then isTrue (by rw [h]) else isFalse (by intro hc; cases hc; exact h rfl)
    | .error a, .error b =>
      if h : a = b then isTrue (by rw [h]) else isFalse (by intro hc; cases hc; exact h rfl)
    | .ok _, .error _ => isFalse (by intro hc; cases hc)
    | .error _, .ok _ => isFalse (by intro hc; cases hc)

/-- What one iteration of the GPS acquisition loop observes: whether
`gps_uart.any()` reports data, and the outcome of `gps_uart.read()` (which may
raise, return `None`, or return a byte string). -/
structure GpsIter where
  any : Bool
  readRes : Except Unit (Option (List Nat))
deriving Repr, DecidableEq

/-- Result structure of the external sentence parser
`gps_parser.parse_gps_data`: fix validity, coordinates (held as integer
micro-degrees, the precision at which the loop formats them), satellite count
and the GPS time token. -/
structure GpsData where
  has_fix : Bool
  latMicro : Int
  lonMicro : Int
  satellites : Nat
  time : String
deriving Repr, DecidableEq

/-- Environment of one `get_gps_data` call: the per-iteration UART
observations, and the behaviour of the external parser on the accumulated raw
string (which may raise). -/
structure GpsEnv where
  iter : Nat → GpsIter
  parse : String → Except Unit GpsData

/-- Environment of one `send_cmd` call on the transmitter UART: the outcome of
`uart.write` (which may raise), whether `uart.any()` reports data after the
timeout, and what `uart.read()` returns. -/
structure RadioEnv where
  write : Except Unit Unit
  any : Bool
  readRes : Option (List Nat)

/-- Everything the outside world does during one cycle of the main loop. -/
structure CycleEnv where
  transmitterOpen : Except Unit Unit
  bmpRead : Except Unit (Int × Int)
  gpsEnv : GpsEnv
  sdWrite : Except Unit Unit
  radio : RadioEnv

/-- The mutable module-level state the loop carries across cycles: the four
initialization flags, the `packet` counter, the binding of the global
`pressure` (`none` when never assigned), and the contents of the SD log file. -/
structure LoopState where
  transmitterInit : Bool
  gpsInit : Bool
  bmpInit : Bool
  sdInit : Bool
  packet : Nat
  pressureVar : Option Int
  file : String
deriving Repr, DecidableEq

/-- Observable products of one completed cycle. -/
structure CycleOut where
  seq : Nat
  payload : String
  sdLine : String
  logged : Bool
  sentCmd : String
  response : Option String
  acked : Bool
deriving Repr, DecidableEq

/-- Embedding of `init_transmitter` (main.py lines 15-25): on success the
global flag becomes `True` and the function returns; on a construction failure
the `except` branch sets the flag `False` and prints, but the trailing
`return uart_transmitter` then reads a local that was never bound, so the call
raises `UnboundLocalError`.  First component: the flag after the call; second:
normal return versus propagated error. -/
def init_transmitter (openRes : Except Unit Unit) : Bool × Except PyErr Unit :=
  match openRes with
  | .ok _ => (true, .ok ())
  | .error _ => (false, .error .unboundLocal)

/-- Embedding of `init_gps` (main.py lines 28-37); identical shape to
`init_transmitter`, with local `gps_module` unbound on failure. -/
def init_gps (openRes : Except Unit Unit) : Bool × Except PyErr Unit :=
  match openRes with
  | .ok _ => (true, .ok ())
  | .error _ => (false, .error .unboundLocal)

/-- Embedding of `write_to_sd` (main.py lines 93-104): if the SD flag is down,
return `False` touching nothing; otherwise append `line + "|"` on I/O success
and return `False` leaving the modelled file as-is on I/O failure.  Returns
the success flag and the file contents after the call. -/
def write_to_sd (sdInit : Bool) (ioRes : Except Unit Unit) (file line : String) :
    Bool × String :=
  if sdInit then
    match ioRes with
    | .ok _ => (true, file ++ line ++ "|")
    | .error _ => (false, file)
  else (false, file)

/-- One iteration of the accumulation loop in `get_gps_data` (lines 118-126):
if `any()`, try to read; a raised read is swallowed by the inner bare
`except: pass`; a `None` or empty chunk is skipped by `if chunk:`; otherwise
the chunk is decoded with the ignore handler and appended. -/
def chunkOf (it : GpsIter) : String :=
  if it.any then
    match it.readRes with
    | .error _ => ""
    | .ok none => ""
    | .ok (some bs) => if bs.isEmpty then "" else String.mk (utf8DecodeIgnore bs)
  else ""

/-- Raw data accumulated by the first `n` iterations of the `for _ in range(6)`
loop of `get_gps_data`. -/
def gpsAccum (env : GpsEnv) : Nat → String
  | 0 => ""
  | n + 1 => gpsAccum env n ++ chunkOf (env.iter n)

/-- The `raw_data` string after the full six-iteration acquisition window. -/
def gpsRawData (env : GpsEnv) : String := gpsAccum env 6

/-- The formatted fix string built at main.py line 135:
latitude and longitude through `:.6f`, then the GPS time token. -/
def fixString (d : GpsData) : String :=
  fmt6 d.latMicro ++ "#" ++ fmt6 d.lonMicro ++ "#" ++ d.time

/-- Embedding of `get_gps_data` (main.py lines 114-146).  The outer `try`
converts any parse exception into `None`; an empty accumulation or a parsed
sentence without a fix also yield `None`; a valid fix yields the formatted
string.  Total: no exception escapes this function. -/
def get_gps_data (env : GpsEnv) : Option String :=
  let raw := gpsRawData env
  if raw.length > 0 then
    match env.parse raw with
    | .error _ => none
    | .ok d => if d.has_fix then some (fixString d) else none
  else none

/-- Embedding of `send_cmd` (main.py lines 161-182), generic in the byte
decoder so that the `except`-returning-`None` branch around the decode is
explicit in the model.  The initial `uart.write` is not inside any `try`: if
it raises, the exception propagates to the caller. -/
def send_cmdD (dec : List Nat → Except Unit String) (env : RadioEnv)
    (waitResponse : Bool) : Except PyErr (Option String) :=
  match env.write with
  | .error _ => .error .peripheral
  | .ok _ =>
    if waitResponse then
      if env.any then
        match env.readRes with
        | none => .ok none
        | some bs =>
          if bs.isEmpty then .ok none
          else
            match dec bs with
            | .ok d => .ok (some (pyStrip d))
            | .error _ => .ok none
      else .ok none
    else .ok none

/-- The decoder `send_cmd` actually uses: utf-8 with the ignore error handler,
which never raises. -/
def pyDecodeIgnore (bs : List Nat) : Except Unit String :=
  .ok (String.mk (utf8DecodeIgnore bs))

/-- `send_cmd` as called by the program: `send_cmdD` with the total
ignore-mode decoder. -/
def send_cmd (env : RadioEnv) (waitResponse : Bool) : Except PyErr (Option String) :=
  send_cmdD pyDecodeIgnore env waitResponse

/-- The acknowledgement test at main.py line 244:
`response and ("+OK" in response or response == "OK")`. -/
def ackOf (r : Option String) : Bool :=
  match r with
  | none => false
  | some s => if s = "" then false else (containsSub "+OK" s || decide (s = "OK"))

/-- The radio payload assembled at main.py line 233:
`msg = f"{packet}#{pressure}#{altitude}#{gps_data}"`.  Reading the global
`pressure` when it was never assigned raises `NameError`; a bound `None` in
`altitude` or `gps_data` renders as the literal token `None`. -/
def msgOf (packet : Nat) (pVar aVar : Option Int) (g : Option String) :
    Except PyErr String :=
  match pVar with
  | none => .error .nameError
  | some p =>
    .ok (toString packet ++ "#" ++ formatH p ++ "#" ++ pyStrOptFloat aVar ++ "#" ++
      (match g with | none => "None" | some t => t))

/-- The storage line assembled at main.py line 238:
`sd_line = f"{packet}#{pressure}#{altitude}#{gps_data if gps_data else 'None'}"`
(conditional expression shown with spelled-out quoting).  Identical to `msgOf`
except that a falsy `gps_data` (either `None` or the empty string) renders as
the literal token `None`. -/
def sdLineOf (packet : Nat) (pVar aVar : Option Int) (g : Option String) :
    Except PyErr String :=
  match pVar with
  | none => .error .nameError
  | some p =>
    .ok (toString packet ++ "#" ++ formatH p ++ "#" ++ pyStrOptFloat aVar ++ "#" ++
      (match g with | none => "None" | some t => if t = "" then "None" else t))

/-- The transmitter-retry step at main.py lines 212-215: when the flag is
down, the loop calls `init_transmitter` again; a normal return updates the
flag, a propagated error aborts the cycle. -/
def retryTransmitter (s : LoopState) (e : CycleEnv) : Except PyErr Bool :=
  if s.transmitterInit then .ok true
  else
    match init_transmitter e.transmitterOpen with
    | (flag, .ok _) => .ok flag
    | (_, .error er) => .error er

/-- The barometer step at main.py lines 218-223: when the BMP flag is up, the
unguarded attribute reads `bmp.altitude` and `bmp.pressure` either deliver the
two rounded values (altitude first, pressure second in the environment pair)
or raise, and a raise propagates; when the flag is down only `altitude` is
assigned (`None`) and the `pressure` binding is left untouched.  Returns the
bindings of `pressure` and `altitude` after the step. -/
def readBmp (s : LoopState) (e : CycleEnv) : Except PyErr (Option Int × Option Int) :=
  if s.bmpInit then
    match e.bmpRead with
    | .ok ap => .ok (some ap.2, some ap.1)
    | .error _ => .error .peripheral
  else .ok (s.pressureVar, none)

/-- Embedding of one iteration of the main `while True` loop (main.py lines
208-247).  Steps in source order: increment `packet`; retry the transmitter if
its flag is down; barometer step; GPS step; assemble `msg` then `sd_line`;
`write_to_sd`; `send_cmd` of the AT+SEND command and the acknowledgement test.
An uncaught Python error anywhere aborts the cycle (and hence the process);
state recorded inside an aborted cycle is unobservable afterwards, so the
error carries no partial state. -/
def cycle (s : LoopState) (e : CycleEnv) : Except PyErr (LoopState × CycleOut) :=
  match retryTransmitter s e with
  | .error er => .error er
  | .ok tInit =>
    match readBmp s e with
    | .error er => .error er
    | .ok pa =>
      match msgOf (s.packet + 1) pa.1 pa.2 (if s.gpsInit then get_gps_data e.gpsEnv else none) with
      | .error er => .error er
      | .ok msg =>
        match sdLineOf (s.packet + 1) pa.1 pa.2 (if s.gpsInit then get_gps_data e.gpsEnv else none) with
        | .error er => .error er
        | .ok sdLine =>
          match send_cmd e.radio true with
          | .error er => .error er
          | .ok resp =>
            .ok ({ transmitterInit := tInit, gpsInit := s.gpsInit, bmpInit := s.bmpInit,
                   sdInit := s.sdInit, packet := s.packet + 1, pressureVar := pa.1,
                   file := (write_to_sd s.sdInit e.sdWrite s.file sdLine).2 },
                 { seq := s.packet + 1, payload := msg, sdLine := sdLine,
                   logged := (write_to_sd s.sdInit e.sdWrite s.file sdLine).1,
                   sentCmd := "AT+SEND=2," ++ toString msg.length ++ "," ++ msg,
                   response := resp, acked := ackOf resp })

/-- Run the loop through a list of per-cycle environments, collecting the
outputs of completed cycles and stopping at the first propagated error. -/
def runLoop : LoopState → List CycleEnv → List CycleOut × Except PyErr LoopState
  | s, [] => ([], .ok s)
  | s, e :: es =>
    match cycle s e with
    | .error er => ([], .error er)
    | .ok r =>
      let rec' := runLoop r.1 es
      (r.2 :: rec'.1, rec'.2)

/-- The loop state right after the one-time bring-up (main.py lines 152-207):
`packet = 0`, the global `pressure` never assigned, flags as bring-up left
them, log file contents abstracted to the post-header point. -/
def initState (t g b sd : Bool) : LoopState :=
  { transmitterInit := t, gpsInit := g, bmpInit := b, sdInit := sd,
    packet := 0, pressureVar := none, file := "" }

/-- A GPS iteration that observes nothing. -/
def quietIter : GpsIter := { any := false, readRes := .ok none }

/-- A GPS environment whose window passes with no data and whose parser
rejects everything. -/
def gpsEnvQuiet : GpsEnv := { iter := fun _ => quietIter, parse := fun _ => .error () }

/-- A radio environment that accepts the write and has no response bytes. -/
def radioSilent : RadioEnv := { write := .ok (), any := false, readRes := none }

/-- A benign cycle environment: transmitter opens, barometer delivers
altitude 123.45 and pressure 1013.25 (as hundredths), GPS quiet, SD write
succeeds, radio silent. -/
def envBenign : CycleEnv :=
  { transmitterOpen := .ok (), bmpRead := .ok (12345, 101325),
    gpsEnv := gpsEnvQuiet, sdWrite := .ok (), radio := radioSilent }

/-- The benign environment with the barometer read raising instead. -/
def envBmpRaise : CycleEnv :=
  { transmitterOpen := .ok (), bmpRead := .error (),
    gpsEnv := gpsEnvQuiet, sdWrite := .ok (), radio := radioSilent }

/-- A GPS acquisition iteration that says nothing arrived this cycle, as a
predicate: the UART reported no data, or the read delivered no bytes. -/
def iterNoData (it : GpsIter) : Prop :=
  it.any = false ∨ it.readRes = .ok none ∨ it.readRes = .ok (some [])

/-- ASCII bytes of the string GPGGA, standing for a raw NMEA burst. -/
def gpsBytes9 : List Nat := [71, 80, 71, 71, 65]

/-- GPS environment for the end-to-end fix scenario: one burst of raw bytes in
the first polling iteration, and a parser that recognises that burst as a
valid fix at latitude 12.345678, longitude -98.765432, time token 123519. -/
def gpsEnvFix : GpsEnv :=
  { iter := fun i => if i = 0 then { any := true, readRes := .ok (some gpsBytes9) } else quietIter,
    parse := fun s =>
      if s = "GPGGA" then
        .ok { has_fix := true, latMicro := 12345678, lonMicro := -98765432,
              satellites := 7, time := "123519" }
      else .error () }

/-- Loop state entering the sequence-7 cycle of the end-to-end scenario. -/
def s9 : LoopState :=
  { transmitterInit := true, gpsInit := true, bmpInit := true, sdInit := false,
    packet := 6, pressureVar := none, file := "" }

/-- Cycle environment of the end-to-end scenario: barometer delivers altitude
123.45 and pressure 1013.25, GPS delivers the fix burst, radio silent. -/
def e9 : CycleEnv :=
  { transmitterOpen := .ok (), bmpRead := .ok (12345, 101325),
    gpsEnv := gpsEnvFix, sdWrite := .ok (), radio := radioSilent }

/-- ASCII bytes of a +OK response followed by CR LF. -/
def okBytes : List Nat := [43, 79, 75, 13, 10]

/-- A radio environment that accepts the write and answers with `okBytes`. -/
def radioOk : RadioEnv := { write := .ok (), any := true, readRes := some okBytes }

/-- State for the storage-not-mounted cycle: transmitter and barometer up,
GPS and SD down, first cycle. -/
def s8 : LoopState := initState true false true false

/-- State after running `cycle s8 envBenign`. -/
def s8After : LoopState :=
  { transmitterInit := true, gpsInit := false, bmpInit := true, sdInit := false,
    packet := 1, pressureVar := some 101325, file := "" }

/-- Output of `cycle s8 envBenign`. -/
def out8 : CycleOut :=
  { seq := 1, payload := "1#1013.25#123.45#None", sdLine := "1#1013.25#123.45#None",
    logged := false, sentCmd := "AT+SEND=2,21,1#1013.25#123.45#None",
    response := none, acked := false }

/-- Whether an `Except` value is a normal return. -/
def exOk {ε α : Type} : Except ε α → Bool
  | .ok _ => true
  | .error _ => false

/-- Structure of every completed cycle: the sequence number used is the
incremented packet counter, the new state carries that counter, the log flag
and file come from `write_to_sd`, and the send command embeds the payload and
its length. -/
theorem cycle_ok_shape (s : LoopState) (e : CycleEnv) (r : LoopState × CycleOut)
    (h : cycle s e = .ok r) :
    r.2.seq = s.packet + 1 ∧ r.1.packet = s.packet + 1 ∧
    r.2.logged = (write_to_sd s.sdInit e.sdWrite s.file r.2.sdLine).1 ∧
    r.1.file = (write_to_sd s.sdInit e.sdWrite s.file r.2.sdLine).2 ∧
    r.2.sentCmd = "AT+SEND=2," ++ toString r.2.payload.length ++ "," ++ r.2.payload := by
  unfold cycle at h
  repeat' split at h
  all_goals
    first
    | (injection h with h; subst h; exact ⟨rfl, rfl, rfl, rfl, rfl⟩)
    | exact absurd h (by simp)

/-- C1 counterexample: with all four peripherals initialized, a cycle in which
the barometer read raises does not complete — the exception propagates out of
the loop body, because the `bmp.altitude` and `bmp.pressure` reads are not
inside any try block. -/
theorem c1_counterexample :
    cycle (initState true true true true) envBmpRaise = Except.error PyErr.peripheral := by
  decide

/-- C1 amended: per-cycle failures of the GPS read and of the storage write
always degrade gracefully (the cycle completes for every GPS environment and
every storage-write outcome), provided the steps with unguarded code succeed:
the barometer read returns, the transmitter either is initialized or reopens
successfully, and the radio UART write returns. -/
theorem c1_amended_degradation (s : LoopState) (e : CycleEnv)
    (hb : s.bmpInit = true) (hbr : exOk e.bmpRead = true)
    (ht : s.transmitterInit = true ∨ exOk e.transmitterOpen = true)
    (hw : exOk e.radio.write = true) :
    exOk (cycle s e) = true := by
  obtain ⟨ap, hap⟩ : ∃ ap, e.bmpRead = .ok ap := by
    cases hx : e.bmpRead with
    | ok ap => exact ⟨ap, rfl⟩
    | error u => rw [hx] at hbr; simp [exOk] at hbr
  have hRT : retryTransmitter s e = .ok true := by
    rcases ht with ht | ht
    · simp [retryTransmitter, ht]
    · obtain ⟨u, hu⟩ : ∃ u, e.transmitterOpen = .ok u := by
        cases hx : e.transmitterOpen with
        | ok u => exact ⟨u, rfl⟩
        | error u => rw [hx] at ht; simp [exOk] at ht
      by_cases hti : s.transmitterInit = true <;>
        simp [retryTransmitter, hti, init_transmitter, hu]
  have hRB : readBmp s e = .ok (some ap.2, some ap.1) := by
    simp [readBmp, hb, hap]
  obtain ⟨u, hwu⟩ : ∃ u, e.radio.write = .ok u := by
    cases hx : e.radio.write with
    | ok u => exact ⟨u, rfl⟩
    | error u => rw [hx] at hw; simp [exOk] at hw
  obtain ⟨r0, hSC⟩ : ∃ r0, send_cmd e.radio true = .ok r0 := by
    cases hany : e.radio.any with
    | false => exact ⟨none, by simp [send_cmd, send_cmdD, hwu, hany]⟩
    | true =>
      cases hr : e.radio.readRes with
      | none => exact ⟨none, by simp [send_cmd, send_cmdD, hwu, hany, hr]⟩
      | some bs =>
        by_cases hbs : bs.isEmpty = true
        · exact ⟨none, by simp [send_cmd, send_cmdD, hwu, hany, hr, hbs]⟩
        · exact ⟨some (pyStrip (String.mk (utf8DecodeIgnore bs))), by
            simp [send_cmd, send_cmdD, hwu, hany, hr, hbs, pyDecodeIgnore]⟩
  simp [cycle, hRT, hRB, hSC, msgOf, sdLineOf, exOk]

/-- C1 witness: a fully healthy cycle completes. -/
theorem c1_witness : exOk (cycle (initState true true true true) envBenign) = true :=
  c1_amended_degradation (initState true true true true) envBenign rfl rfl (Or.inl rfl) rfl

/-- C2: evaluation of the peripheral-open functions at a failing open.  When
construction of the underlying UART raises, `init_transmitter` and `init_gps`
do set their availability flag to not-initialized, but then raise
`UnboundLocalError` out of the initializer (the `return` reads a local that
the failed `try` never bound) instead of returning normally; a successful open
returns normally with the flag set. -/
theorem c2_open_failure_raises :
    init_transmitter (.error ()) = (false, .error PyErr.unboundLocal) ∧
    init_gps (.error ()) = (false, .error PyErr.unboundLocal) ∧
    init_transmitter (.ok ()) = (true, .ok ()) ∧
    init_gps (.ok ()) = (true, .ok ()) := by
  exact ⟨rfl, rfl, rfl, rfl⟩

/-- C3: evaluation of the loop at the failing input.  When the altitude sensor
was never initialized, the barometer branch assigns only `altitude = None` and
the global `pressure` is never bound, so the very first record assembly raises
`NameError` and the cycle aborts — no record with absent pressure and altitude
is ever produced, for every peripheral environment. -/
theorem c3_bmp_not_ready_name_error (g sd : Bool) (n : Nat) (f : String) (e : CycleEnv) :
    cycle { transmitterInit := true, gpsInit := g, bmpInit := false, sdInit := sd,
            packet := n, pressureVar := none, file := f } e =
      Except.error PyErr.nameError := by
  simp [cycle, retryTransmitter, readBmp, msgOf]

/-- C4 counterexample: at sequence 3 with both barometer-derived fields and
the GPS field absent (pressure bound with value 1013.25, since an unbound
pressure would instead raise NameError), the radio payload renders the absent
fields as the literal token None — not as blank — and is the very same string
as the storage line, so the two serializations do not differ in no-data token
rendering. -/
theorem c4_counterexample :
    msgOf 3 (some 101325) none none = Except.ok "3#1013.25#None#None" ∧
    msgOf 3 (some 101325) none none = sdLineOf 3 (some 101325) none none := by
  exact ⟨by decide, by decide⟩

/-- C4 amended: absent fields are rendered as the literal token None in BOTH
the storage line and the radio payload; the two serializations of one record
are identical strings whenever the GPS field is not the empty string, and the
GPS reader never returns the empty string. -/
theorem c4_amended_serialization :
    (∀ (pk : Nat) (p : Int) (a : Option Int) (g : Option String),
        (∀ t, g = some t → t ≠ "") →
        msgOf pk (some p) a g = sdLineOf pk (some p) a g) ∧
    (∀ (env : GpsEnv) (t : String), get_gps_data env = some t → t ≠ "") := by
  constructor
  · intro pk p a g hg
    cases g with
    | none => rfl
    | some t =>
      have ht : t ≠ "" := hg t rfl
      simp [msgOf, sdLineOf, ht]
  · intro env t ht
    simp only [get_gps_data] at ht
    split at ht
    · split at ht
      · exact absurd ht (by simp)
      · split at ht
        · injection ht with ht
          subst ht
          intro hc
          have hlen := congrArg String.length hc
          simp only [fixString, String.length_append] at hlen
          have h1 : ("#" : String).length = 1 := rfl
          have h0 : ("" : String).length = 0 := rfl
          rw [h1, h0] at hlen
          omega
        · exact absurd ht (by simp)
    · exact absurd ht (by simp)

/-- C4 witness: the serialization identity applied at a concrete record with a
present GPS string. -/
theorem c4_witness :
    msgOf 7 (some 99) (some (-5)) (some "x") = sdLineOf 7 (some 99) (some (-5)) (some "x") :=
  c4_amended_serialization.1 7 99 (some (-5)) (some "x")
    (fun t ht => by injection ht with h; subst h; decide)

/-- Sequence numbers produced by a run: starting from any state, the outputs
of the completed cycles carry consecutive sequence numbers beginning one past
the current packet counter. -/
theorem runLoop_seqs (envs : List CycleEnv) : ∀ s : LoopState,
    ((runLoop s envs).1.map (fun o => o.seq)) =
      List.range' (s.packet + 1) (runLoop s envs).1.length := by
  induction envs with
  | nil => intro s; rfl
  | cons e es ih =>
    intro s
    cases hc : cycle s e with
    | error er => simp [runLoop, hc]
    | ok r =>
      have hs := cycle_ok_shape s e r hc
      simp only [runLoop, hc, List.map_cons, List.length_cons]
      rw [List.range'_succ]
      congr 1
      · exact hs.1
      · rw [ih r.1, hs.2.1]

/-- C5: for every initial flag configuration and every list of per-cycle
environments — so regardless of which peripherals are ready or fail in any
cycle — the records of the completed cycles carry sequence numbers exactly
1, 2, 3, ...: value 1 on the first cycle and an increase by exactly 1 on each
subsequent one. -/
theorem c5_sequence (t g b sd : Bool) (envs : List CycleEnv) :
    ((runLoop (initState t g b sd) envs).1.map (fun o => o.seq)) =
      List.range' 1 (runLoop (initState t g b sd) envs).1.length :=
  runLoop_seqs envs (initState t g b sd)

/-- C5 witness: a two-cycle healthy run yields sequences 1 and 2. -/
theorem c5_witness :
    ((runLoop (initState true true true true) [envBenign, envBenign]).1.map
        (fun o => o.seq)) =
      List.range' 1
        (runLoop (initState true true true true) [envBenign, envBenign]).1.length :=
  c5_sequence true true true true [envBenign, envBenign]

/-- C6: the acknowledgement test is true exactly when a response string was
received and it contains the substring +OK or equals OK; in particular
+OK=2,5 acknowledges, ERROR does not, and a missing response does not. -/
theorem c6_acknowledgement :
    (∀ r : Option String,
        ackOf r = true ↔ ∃ s, r = some s ∧ (containsSub "+OK" s = true ∨ s = "OK")) ∧
    ackOf (some "+OK=2,5") = true ∧ ackOf (some "ERROR") = false ∧ ackOf none = false := by
  refine ⟨?_, by decide, by decide, rfl⟩
  intro r
  cases r with
  | none => simp [ackOf]
  | some s =>
    by_cases hs : s = ""
    · subst hs
      simp only [ackOf, if_pos rfl]
      constructor
      · intro h; exact absurd h (by decide)
      · rintro ⟨t, ht, hc⟩
        injection ht with ht
        subst ht
        rcases hc with hc | hc <;> exact absurd hc (by decide)
    · simp [ackOf, hs, Bool.or_eq_true, decide_eq_true_iff]

/-- C6 witness: the acknowledgement test evaluated on the documented response. -/
theorem c6_witness : ackOf (some "+OK=2,5") = true :=
  c6_acknowledgement.2.1

/-- If no acquisition iteration below `n` delivered bytes, the accumulated raw
string is empty. -/
theorem gpsAccum_noData (env : GpsEnv) :
    ∀ n : Nat, (∀ i, i < n → iterNoData (env.iter i)) → gpsAccum env n = "" := by
  intro n
  induction n with
  | zero => intro _; rfl
  | succ m ih =>
    intro h
    have h1 : gpsAccum env m = "" := ih (fun i hi => h i (Nat.lt_succ_of_lt hi))
    have h2 : chunkOf (env.iter m) = "" := by
      rcases h m (Nat.lt_succ_self m) with hA | hR | hR
      · simp [chunkOf, hA]
      · simp [chunkOf, hR]
      · simp [chunkOf, hR]
    rw [gpsAccum, h1, h2]
    rfl

/-- C7: if the six-iteration acquisition window elapses with zero bytes
received, `get_gps_data` returns none — not an error; and when the sentence
parser raises on the accumulated data, the exception is caught and the result
is likewise none.  The function is total, so no exception escapes it. -/
theorem c7_gps_degradation (env : GpsEnv) :
    ((∀ i, i < 6 → iterNoData (env.iter i)) → get_gps_data env = none) ∧
    (∀ er : Unit, env.parse (gpsRawData env) = .error er → get_gps_data env = none) := by
  constructor
  · intro h
    have hraw : gpsRawData env = "" := gpsAccum_noData env 6 h
    simp [get_gps_data, hraw]
  · intro er h
    simp [get_gps_data, h]

/-- C7 witness: a silent window yields none. -/
theorem c7_witness : get_gps_data gpsEnvQuiet = none :=
  (c7_gps_degradation gpsEnvQuiet).1 (fun _ _ => Or.inl rfl)

/-- C8: when storage is not mounted, `write_to_sd` returns false and leaves
the log file untouched for every write environment and line; and every cycle
that completes with storage down has an unset log flag, an unchanged file,
and still issues the radio send command of that same cycle (the transmit step
is reached regardless of the storage outcome). -/
theorem c8_sd_not_mounted :
    (∀ (w : Except Unit Unit) (f l : String), write_to_sd false w f l = (false, f)) ∧
    (∀ (s : LoopState) (e : CycleEnv) (r : LoopState × CycleOut),
        s.sdInit = false → cycle s e = .ok r →
        r.2.logged = false ∧ r.1.file = s.file ∧
        r.2.sentCmd = "AT+SEND=2," ++ toString r.2.payload.length ++ "," ++ r.2.payload) := by
  constructor
  · intro w f l
    rfl
  · intro s e r hsd h
    have hs := cycle_ok_shape s e r h
    have hwfalse : write_to_sd s.sdInit e.sdWrite s.file r.2.sdLine = (false, s.file) := by
      rw [hsd]
      rfl
    refine ⟨?_, ?_, hs.2.2.2.2⟩
    · rw [hs.2.2.1, hwfalse]
    · rw [hs.2.2.2.1, hwfalse]

/-- C8 witness: the cycle theorem applied to a concrete completed cycle with
storage down. -/
theorem c8_witness :
    out8.logged = false ∧ s8After.file = s8.file ∧
    out8.sentCmd = "AT+SEND=2," ++ toString out8.payload.length ++ "," ++ out8.payload :=
  c8_sd_not_mounted.2 s8 envBenign (s8After, out8) rfl (by decide)

/-- C9: the end-to-end scenario — barometer reporting pressure 1013.25 and
altitude 123.45, GPS delivering a burst parsed as a valid fix at latitude
12.345678, longitude -98.765432, time 123519, sequence 7 — assembles exactly
the claimed radio payload, with coordinates formatted to six decimal places
by `get_gps_data`. -/
theorem c9_payload :
    Except.map (fun r => r.2.payload) (cycle s9 e9) =
      Except.ok "7#1013.25#123.45#12.345678#-98.765432#123519" ∧
    get_gps_data gpsEnvFix = some "12.345678#-98.765432#123519" := by
  exact ⟨by decide, by decide⟩

/-- C10: in `send_cmd` with wait_response true and the write succeeding,
whenever nonempty response bytes are available after the timeout the function
returns the ignore-mode-decoded, stripped response string — the decode-error
branch that would return no response is never taken, because the ignore-mode
decoder is total — and the result is no-response exactly when no bytes
arrived (no data flagged, a read returning no bytes, or an empty byte
string). -/
theorem c10_send_cmd_decode :
    (∀ (env : RadioEnv) (bs : List Nat),
        env.write = .ok () → env.any = true → env.readRes = some bs → bs ≠ [] →
        send_cmd env true = .ok (some (pyStrip (String.mk (utf8DecodeIgnore bs))))) ∧
    (∀ env : RadioEnv, env.write = .ok () →
        (send_cmd env true = .ok none ↔
          (env.any = false ∨ env.readRes = none ∨ env.readRes = some []))) := by
  constructor
  · intro env bs hw hany hr hbs
    have hbs' : bs.isEmpty = false := by
      cases bs with
      | nil => exact absurd rfl hbs
      | cons a l => rfl
    simp [send_cmd, send_cmdD, hw, hany, hr, hbs', pyDecodeIgnore]
  · rintro ⟨w, vany, rr⟩ hw
    obtain rfl : w = .ok () := hw
    cases vany with
    | false => simp [send_cmd, send_cmdD]
    | true =>
      rcases rr with _ | bs
      · simp [send_cmd, send_cmdD]
      · cases bs with
        | nil => simp [send_cmd, send_cmdD]
        | cons a l => simp [send_cmd, send_cmdD, pyDecodeIgnore]

/-- C10 witness: the send theorem applied to a concrete response of +OK
followed by CR LF, which decodes and strips to +OK. -/
theorem c10_witness : send_cmd radioOk true = Except.ok (some "+OK") := by
  rw [c10_send_cmd_decode.1 radioOk okBytes rfl rfl rfl (by decide)]
  decide
